import Mathlib

/-!
Shallow embedding of `src/backend.py` (video-content-generation backend).

External collaborators (the OpenAI text/speech clients, the Pixabay HTTP
provider, and Python's `random.random()` draws) are modelled as explicit
function parameters; the logic of the endpoints and helper functions is
translated directly from the source.

Text operations approximate Python's over the ASCII range: Python's
`str.lower`, `str.strip` and the regex class `\w` also handle non-ASCII
letters, which none of the verified properties depend on.
-/

/-- Python truthiness of an optional string value (`None` and `""` are falsy),
as used by `if not media_url`, `scene.get('id') or ...`, etc. -/
def pyTruthy : Option String → Bool
  | none => false
  | some s => s != ""

/-- Python's default whitespace set for `str.strip` (ASCII part). -/
def pyIsSpace (c : Char) : Bool :=
  c == ' ' || c == '\t' || c == '\n' || c == '\r' || c == '\x0b' || c == '\x0c'

def dropLeadingSpace : List Char → List Char
  | [] => []
  | c :: rest => if pyIsSpace c then dropLeadingSpace rest else c :: rest

/-- Python `str.strip()`: remove leading and trailing whitespace. -/
def pyStrip (s : String) : String :=
  String.mk ((dropLeadingSpace (dropLeadingSpace s.data).reverse).reverse)

-- ## Keyword extractor (`extract_keywords`, backend.py lines 333-340)

/-- A character matched by the regex class `\w` (ASCII part). -/
def isWordChar (c : Char) : Bool := c.isAlphanum || c == '_'

/-- Helper of `tokenize`: accumulates the current run of word characters
(in reverse) and emits it when a non-word character or the end is reached,
mirroring `re.findall(r'\b\w+\b', text)`. -/
def tokenizeAux : List Char → List Char → List String
  | [], [] => []
  | [], cur => [String.mk cur.reverse]
  | c :: rest, cur =>
    if isWordChar c then tokenizeAux rest (c :: cur)
    else if cur.isEmpty then tokenizeAux rest []
    else String.mk cur.reverse :: tokenizeAux rest []

/-- `re.findall(r'\b\w+\b', text)`: the maximal runs of word characters. -/
def tokenize (text : String) : List String := tokenizeAux text.data []

/-- Python `str.lower()` (ASCII part). -/
def pyLower (s : String) : String := String.mk (s.data.map Char.toLower)

/-- The fixed stopword set of `extract_keywords`. -/
def stopwords : List String :=
  ["el", "la", "los", "las", "un", "una", "unos", "unas", "de", "en", "y", "o",
   "es", "para", "con", "del", "al", "se", "por", "que", "más", "como", "pero",
   "no", "su", "sus", "este", "esta", "estos", "estas", "lo", "mi", "mis"]

/-- The list `filtered_words` of `extract_keywords`: tokens of the lowercased
text that are not stopwords and have more than 2 characters. -/
def filteredWords (text : String) : List String :=
  (tokenize (pyLower text)).filter
    (fun w => !(stopwords.contains w) && decide (w.length > 2))

/-- Number of occurrences of `w` in `ws`, as `collections.Counter` counts. -/
def countOcc (ws : List String) (w : String) : Nat :=
  (ws.filter (fun x => x == w)).length

/-- The distinct words of `ws` in first-occurrence order (the key order of
`collections.Counter`, which is a dict). -/
def uniques (ws : List String) : List String :=
  ws.foldl (fun acc w => if w ∈ acc then acc else acc ++ [w]) []

/-- Stable insertion (strictly greater counts move left; equal counts keep
insertion order), matching the stable descending order of
`Counter.most_common`. -/
def insertByCount (cnt : String → Nat) (w : String) : List String → List String
  | [] => [w]
  | x :: xs => if cnt w > cnt x then w :: x :: xs else x :: insertByCount cnt w xs

/-- Stable sort by descending count. -/
def sortByCountDesc (cnt : String → Nat) (ws : List String) : List String :=
  ws.foldl (fun acc w => insertByCount cnt w acc) []

/-- `[word for word, count in Counter(ws).most_common(n)]`. -/
def mostCommon (ws : List String) (n : Nat) : List String :=
  (sortByCountDesc (countOcc ws) (uniques ws)).take n

/-- Python `text.split(' ')[0]`: the characters before the first space
(the whole text when it has no space; `""` for the empty text). -/
def firstSpaceTokenAux : List Char → List Char
  | [] => []
  | c :: rest => if c == ' ' then [] else c :: firstSpaceTokenAux rest

def firstSpaceToken (text : String) : String :=
  String.mk (firstSpaceTokenAux text.data)

/-- `extract_keywords(text, num_keywords)` from backend.py. -/
def extract_keywords (text : String) (num_keywords : Nat) : List String :=
  let mc := mostCommon (filteredWords text) num_keywords
  if mc.isEmpty then [firstSpaceToken text] else mc

example : extract_keywords "el gato y el perro corren juntos" 3 =
    ["gato", "perro", "corren"] := by decide

example : extract_keywords "el" 3 = ["el"] := by decide

example : extract_keywords "" 3 = [""] := by decide

-- ## Pixabay search (`buscar_imagen_pixabay` / `buscar_video_pixabay`,
-- backend.py lines 342-398)

/-- One element of the image provider's `hits` list; `none` models an absent
JSON key, matching the `'largeImageURL' in hit` / `'webformatURL' in hit`
checks. -/
structure ImageHit where
  largeImageURL : Option String
  webformatURL : Option String
deriving DecidableEq

/-- One element of the video provider's `hits` list: `largeUrl` is
`hit['videos']['large']['url']` when the three nested keys are present,
`none` otherwise. -/
structure VideoHit where
  largeUrl : Option String
deriving DecidableEq

/-- Outcome of the provider HTTP call: `error` covers every
`requests.exceptions.RequestException` (connection failure, the 10-second
timeout, and the non-2xx statuses turned into exceptions by
`raise_for_status`), all caught by the `except` clause. -/
inductive ProviderResult (α : Type)
  | ok (hits : List α)
  | error
deriving DecidableEq

/-- The `for hit in data['hits']` loop of `buscar_imagen_pixabay`:
break (and return) at the first hit carrying `largeImageURL`; otherwise
keep overwriting `best_image_url` with each hit's `webformatURL`. -/
def scanImageHits : List ImageHit → Option String → Option String
  | [], best => best
  | h :: rest, best =>
    match h.largeImageURL with
    | some u => some u
    | none =>
      match h.webformatURL with
      | some w => scanImageHits rest (some w)
      | none => scanImageHits rest best

/-- `buscar_imagen_pixabay`, as a function of the provider's response. -/
def buscar_imagen_pixabay (resp : ProviderResult ImageHit) : Option String :=
  match resp with
  | .error => none
  | .ok hits => if hits.isEmpty then none else scanImageHits hits none

/-- The `for hit in data['hits']` loop of `buscar_video_pixabay`:
break at the first hit with a usable `videos.large.url`. -/
def scanVideoHits : List VideoHit → Option String
  | [] => none
  | h :: rest =>
    match h.largeUrl with
    | some u => some u
    | none => scanVideoHits rest

/-- `buscar_video_pixabay`, as a function of the provider's response. -/
def buscar_video_pixabay (resp : ProviderResult VideoHit) : Option String :=
  match resp with
  | .error => none
  | .ok hits => if hits.isEmpty then none else scanVideoHits hits

/-- First `some` wins (`Option` alternative on strings). -/
def oalt : Option String → Option String → Option String
  | some u, _ => some u
  | none, b => b

/-- The `largeImageURL` of the first hit that carries one. -/
def firstLarge : List ImageHit → Option String
  | [] => none
  | h :: rest =>
    match h.largeImageURL with
    | some u => some u
    | none => firstLarge rest

/-- The `webformatURL` of the last hit that carries one. -/
def lastWeb : List ImageHit → Option String
  | [] => none
  | h :: rest =>
    match lastWeb rest with
    | some u => some u
    | none => h.webformatURL

/-- Image-search result selection as the spec's words state it: the first
hit's `largeImageURL`, else that same first hit's `webformatURL`, else none.
Kept for comparison with the code's `buscar_imagen_pixabay`. -/
def buscar_imagen_claimed : List ImageHit → Option String
  | [] => none
  | h :: _ => oalt h.largeImageURL h.webformatURL

-- ## Data model of the endpoints

/-- A scene as parsed from the generative split (`scenes_from_gpt`);
`none` models an absent dict key. -/
structure GptScene where
  id : Option String
  script : Option String
  keywords : List String
deriving DecidableEq

/-- A scene as returned by the endpoints (`new_scene` in
`generate_initial_content`, and the elements of `generate_audio`'s
`scenes`). -/
structure OutScene where
  id : String
  script : String
  imageUrl : Option String
  videoUrl : Option String
  audioBase64 : Option String
deriving DecidableEq

/-- The request body of `POST /api/generate-initial-content`.
`duracion = none` models a `duracion` value that is missing or not
convertible by `int(...)` (both raise before any validation). -/
structure InitRequest where
  guionPersonalizado : String
  duracion : Option Int
  resolucion : Option String
  nicho : Option String
  idioma : Option String
deriving DecidableEq

inductive RespBody
  | scenes (l : List OutScene)
  | error (msg : String)
deriving DecidableEq

structure HttpResponse where
  status : Nat
  body : RespBody
deriving DecidableEq

-- ## Scene planner (`generate_initial_content`, backend.py lines 46-131)

/-- `num_escenas_esperadas = max(1, round(duracion_video_seg / 7))`
(backend.py lines 64-65). Python divides in binary floating point and
rounds halves to even; the exact-rational model agrees with it because
`d / 7` is never a half-integer (7 is odd) and stays farther than `1/14`
from every half-integer, beyond the float error for every `|d| ≤ 10^15`. -/
def num_escenas_esperadas (duracion : Int) : Int :=
  max 1 (round ((duracion : ℚ) / 7))

/-- `" ".join(scene.get('keywords', [])[:3])`. -/
def sceneQuery (scene : GptScene) : String :=
  String.intercalate " " (scene.keywords.take 3)

/-- The media-selection chain shared by `generate_initial_content` and the
`'media'` branch of `regenerate_scene_part`: with the video branch drawn,
try the video search; whenever that result is falsy, fall back to the image
search. -/
def select_media (useVideo : Bool) (videoSearch imageSearch : String → Option String)
    (q : String) : Option String :=
  let fromVideo := if useVideo then videoSearch q else none
  if pyTruthy fromVideo then fromVideo else imageSearch q

/-- The body of the `for i, scene in enumerate(scenes_from_gpt)` loop:
builds `new_scene` (backend.py lines 106-125). `draws i` is the scene's
`random.random() < 0.7` draw, `freshId i` its `str(uuid.uuid4())`. -/
def process_scene (draws : Nat → Bool) (videoSearch imageSearch : String → Option String)
    (freshId : Nat → String) (i : Nat) (scene : GptScene) : OutScene :=
  let use_video := draws i
  let media_url := select_media use_video videoSearch imageSearch (sceneQuery scene)
  { id := if pyTruthy scene.id then scene.id.getD "" else freshId i
    script := scene.script.getD ""
    imageUrl := if use_video then none else media_url
    videoUrl := if use_video then media_url else none
    audioBase64 := none }

/-- Number of outbound Pixabay calls the loop body makes for one scene:
one video search when the video branch is drawn, plus one image search
whenever the video result is falsy. -/
def scene_call_count (draws : Nat → Bool) (videoSearch : String → Option String)
    (i : Nat) (scene : GptScene) : Nat :=
  let use_video := draws i
  let fromVideo := if use_video then videoSearch (sceneQuery scene) else none
  (if use_video then 1 else 0) + (if pyTruthy fromVideo then 0 else 1)

/-- `generate_initial_content`. `gpt` maps the requested scene-count target
to the parsed scene list of the generative split; the second component of
the result counts the outbound calls made (generative + media searches).
The `int(data.get('duracion'))` conversion runs before the empty-script
check, exactly as in the source (lines 56 vs 61): a failing conversion is
caught by the boundary `except` and answered with 500. -/
def generate_initial_content (gpt : Int → List GptScene) (draws : Nat → Bool)
    (videoSearch imageSearch : String → Option String) (freshId : Nat → String)
    (req : InitRequest) : HttpResponse × Nat :=
  match req.duracion with
  | none => (⟨500, .error "int() conversion of duracion failed"⟩, 0)
  | some dur =>
    if pyStrip req.guionPersonalizado = "" then
      (⟨400, .error "El guion personalizado no puede estar vacío."⟩, 0)
    else
      let scenes_from_gpt := gpt (num_escenas_esperadas dur)
      let outScenes := scenes_from_gpt.enum.map
        (fun p => process_scene draws videoSearch imageSearch freshId p.1 p.2)
      let calls := 1 + (scenes_from_gpt.enum.map
        (fun p => scene_call_count draws videoSearch p.1 p.2)).sum
      (⟨200, .scenes outScenes⟩, calls)

-- ## `regenerate_scene_part`, `'media'` branch (backend.py lines 209-226)

/-- The query string `" ".join(extract_keywords(scene['script'], 3))`. -/
def regenQuery (script : String) : String :=
  String.intercalate " " (extract_keywords script 3)

/-- The `'media'` branch of `regenerate_scene_part`: returns the pair
`(newImageUrl, newVideoUrl)`. -/
def regenerate_scene_part_media (draw : Bool)
    (videoSearch imageSearch : String → Option String) (script : String) :
    Option String × Option String :=
  let media_url := select_media draw videoSearch imageSearch (regenQuery script)
  if draw then (none, media_url) else (media_url, none)

-- ## Narration synthesis (`generate_audio`, backend.py lines 133-170, and
-- the `'audio'` branch of `regenerate_scene_part`, lines 228-241)

/-- The body of `generate_audio`'s loop for one scene: synthesize (and
base64-encode) only when the script is truthy and `audioBase64` is falsy.
`tts` maps a script to the base64 payload the speech call would produce. -/
def process_audio_scene (tts : String → String) (scene : OutScene) : OutScene :=
  if (scene.script != "") && !(pyTruthy scene.audioBase64) then
    { scene with audioBase64 := some (tts scene.script) }
  else scene

/-- `generate_audio`: maps the loop body over the scenes. -/
def generate_audio (tts : String → String) (scenes : List OutScene) : List OutScene :=
  scenes.map (process_audio_scene tts)

/-- Number of speech-synthesis calls `generate_audio` makes. -/
def audio_call_count (scenes : List OutScene) : Nat :=
  (scenes.filter (fun s => (s.script != "") && !(pyTruthy s.audioBase64))).length

/-- The `'audio'` branch of `regenerate_scene_part`: always synthesizes from
the scene's script and returns the fresh payload (`newAudioBase64`). -/
def regenerate_scene_part_audio (tts : String → String) (scene : OutScene) : String :=
  tts scene.script

-- ## SEO composer (`generate_seo`, backend.py lines 250-309)

inductive SeoResult
  | err (status : Nat) (msg : String)
  | ok (fields : List (String × String))
deriving DecidableEq

/-- `generate_seo`: `genTitulo`/`genDescripcion`/`genHashtags` are the
(stripped) outputs the three generative calls would produce; the result
lists the keys of `seo_data` in insertion order. `seoType = none` models an
absent `type` key (`data.get('type', 'all')`). -/
def generate_seo (genTitulo genDescripcion genHashtags : String)
    (guion nicho : Option String) (seoType : Option String) : SeoResult :=
  let st := seoType.getD "all"
  if !(pyTruthy guion) || !(pyTruthy nicho) then
    .err 400 "Guion y nicho son requeridos para generar SEO"
  else
    .ok ((if st == "all" || st == "titulo" then [("titulo", genTitulo)] else []) ++
      (if st == "all" || st == "descripcion" then [("descripcion", genDescripcion)] else []) ++
      (if st == "all" || st == "hashtags" then [("hashtags", genHashtags)] else []))

-- ## Helper lemmas about the keyword extractor

theorem mem_insertByCount {cnt : String → Nat} {w y : String} {xs : List String}
    (h : y ∈ insertByCount cnt w xs) : y = w ∨ y ∈ xs := by
  induction xs with
  | nil => simpa [insertByCount] using h
  | cons x xs ih =>
    rw [insertByCount] at h
    split at h
    · simpa using h
    · rcases List.mem_cons.mp h with h1 | h2
      · exact Or.inr (List.mem_cons.mpr (Or.inl h1))
      · rcases ih h2 with h3 | h4
        · exact Or.inl h3
        · exact Or.inr (List.mem_cons.mpr (Or.inr h4))

theorem insertByCount_ne_nil (cnt : String → Nat) (w : String) (xs : List String) :
    insertByCount cnt w xs ≠ [] := by
  cases xs with
  | nil => simp [insertByCount]
  | cons x xs =>
    rw [insertByCount]
    split <;> simp

theorem mem_sortFold {cnt : String → Nat} (ws : List String) :
    ∀ acc y, y ∈ ws.foldl (fun a w => insertByCount cnt w a) acc → y ∈ acc ∨ y ∈ ws := by
  induction ws with
  | nil => intro acc y h; exact Or.inl h
  | cons w ws ih =>
    intro acc y h
    rw [List.foldl_cons] at h
    rcases ih _ y h with h1 | h2
    · rcases mem_insertByCount h1 with h3 | h4
      · exact Or.inr (by simp [h3])
      · exact Or.inl h4
    · exact Or.inr (List.mem_cons.mpr (Or.inr h2))

theorem mem_sortByCountDesc {cnt : String → Nat} {ws : List String} {y : String}
    (h : y ∈ sortByCountDesc cnt ws) : y ∈ ws := by
  rcases mem_sortFold ws [] y h with h1 | h2
  · simp at h1
  · exact h2

theorem sortFold_eq_nil {cnt : String → Nat} (ws : List String) :
    ∀ acc, ws.foldl (fun a w => insertByCount cnt w a) acc = [] → acc = [] ∧ ws = [] := by
  induction ws with
  | nil => intro acc h; exact ⟨h, rfl⟩
  | cons w ws ih =>
    intro acc h
    rw [List.foldl_cons] at h
    rcases ih _ h with ⟨h1, _⟩
    exact absurd h1 (insertByCount_ne_nil cnt w acc)

theorem sortByCountDesc_ne_nil {cnt : String → Nat} {ws : List String} (h : ws ≠ []) :
    sortByCountDesc cnt ws ≠ [] := by
  intro hc
  exact h (sortFold_eq_nil ws [] hc).2

theorem mem_uniquesFold (ws : List String) :
    ∀ acc y, y ∈ ws.foldl (fun a w => if w ∈ a then a else a ++ [w]) acc →
      y ∈ acc ∨ y ∈ ws := by
  induction ws with
  | nil => intro acc y h; exact Or.inl h
  | cons w ws ih =>
    intro acc y h
    rw [List.foldl_cons] at h
    rcases ih _ y h with h1 | h2
    · by_cases hw : w ∈ acc
      · rw [if_pos hw] at h1; exact Or.inl h1
      · rw [if_neg hw] at h1
        rcases List.mem_append.mp h1 with h3 | h4
        · exact Or.inl h3
        · exact Or.inr (by simpa using Or.inl (List.mem_singleton.mp h4))
    · exact Or.inr (List.mem_cons.mpr (Or.inr h2))

theorem mem_uniques {ws : List String} {y : String} (h : y ∈ uniques ws) : y ∈ ws := by
  rcases mem_uniquesFold ws [] y h with h1 | h2
  · simp at h1
  · exact h2

theorem uniquesFold_eq_nil (ws : List String) :
    ∀ acc, ws.foldl (fun a w => if w ∈ a then a else a ++ [w]) acc = [] →
      acc = [] ∧ ws = [] := by
  induction ws with
  | nil => intro acc h; exact ⟨h, rfl⟩
  | cons w ws ih =>
    intro acc h
    rw [List.foldl_cons] at h
    rcases ih _ h with ⟨h1, _⟩
    by_cases hw : w ∈ acc
    · rw [if_pos hw] at h1
      rw [h1] at hw
      simp at hw
    · rw [if_neg hw] at h1
      simp at h1

theorem uniques_ne_nil {ws : List String} (h : ws ≠ []) : uniques ws ≠ [] := by
  intro hc
  exact h (uniquesFold_eq_nil ws [] hc).2

theorem mem_filteredWords {text w : String} (h : w ∈ filteredWords text) :
    w ∉ stopwords ∧ 2 < w.length := by
  rcases List.mem_filter.mp h with ⟨_, hp⟩
  rcases Bool.and_eq_true_iff.mp hp with ⟨h1, h2⟩
  refine ⟨?_, of_decide_eq_true h2⟩
  intro hmem
  rw [Bool.not_eq_eq_eq_not, Bool.not_true] at h1
  have h3 : stopwords.contains w = true := List.elem_eq_true_of_mem hmem
  rw [h1] at h3
  exact Bool.false_ne_true h3

-- ## Helper lemmas about the image-hit scan

theorem oalt_none (a : Option String) : oalt a none = a := by
  cases a <;> rfl

theorem oalt_some_absorb (a b : Option String) (w : String) :
    oalt (oalt a (some w)) b = oalt a (some w) := by
  cases a <;> rfl

theorem lastWeb_cons (h : ImageHit) (rest : List ImageHit) :
    lastWeb (h :: rest) = oalt (lastWeb rest) h.webformatURL := by
  rw [lastWeb]
  cases lastWeb rest <;> rfl

theorem scanImageHits_eq (hits : List ImageHit) :
    ∀ best, scanImageHits hits best =
      oalt (firstLarge hits) (oalt (lastWeb hits) best) := by
  induction hits with
  | nil => intro best; rfl
  | cons h rest ih =>
    intro best
    obtain ⟨hL, hW⟩ := h
    cases hL with
    | some u => rfl
    | none =>
      cases hW with
      | some w =>
        show scanImageHits rest (some w) = _
        rw [ih (some w), lastWeb_cons]
        show _ = oalt (firstLarge rest) (oalt (oalt (lastWeb rest) (some w)) best)
        rw [oalt_some_absorb]
      | none =>
        show scanImageHits rest best = _
        rw [ih best, lastWeb_cons]
        show _ = oalt (firstLarge rest) (oalt (oalt (lastWeb rest) none) best)
        rw [oalt_none]

-- ## Helper lemmas about scene media assembly and audio

theorem process_scene_mutex (draws : Nat → Bool)
    (videoSearch imageSearch : String → Option String) (freshId : Nat → String)
    (i : Nat) (scene : GptScene) :
    (process_scene draws videoSearch imageSearch freshId i scene).imageUrl = none ∨
    (process_scene draws videoSearch imageSearch freshId i scene).videoUrl = none := by
  cases hd : draws i
  · right; simp [process_scene, hd]
  · left; simp [process_scene, hd]

theorem process_audio_scene_idem (tts : String → String) (s : OutScene) :
    process_audio_scene tts (process_audio_scene tts s) = process_audio_scene tts s := by
  unfold process_audio_scene
  by_cases h : ((s.script != "") && !(pyTruthy s.audioBase64)) = true
  · rw [if_pos h]
    by_cases h2 : tts s.script = ""
    · simp [pyTruthy, h2]
    · simp [pyTruthy, h2]
  · rw [if_neg h, if_neg h]

-- ## Claim theorems

/-- Claim C1, counterexample: in the scene-generation pipeline, draw the
video branch (`random.random() < 0.7` true), let the video search return
nothing and the image fallback return a URL — that URL is assigned to
`videoUrl`, with `imageUrl` left empty, contradicting the claim that it
would end up in `imageUrl`.  The same happens in the `'media'` branch of
the regeneration endpoint. -/
theorem C1_counterexample :
    (generate_initial_content
        (fun _ => [⟨some "s1", some "guion de la escena", ["luna", "estrellas"]⟩])
        (fun _ => true) (fun _ => none) (fun _ => some "https://img.example/a.jpg")
        (fun _ => "fresh-id")
        ⟨"texto del guion", some 14, some "16:9", some "ciencia", some "es"⟩).1 =
      ⟨200, .scenes [⟨"s1", "guion de la escena", none,
        some "https://img.example/a.jpg", none⟩]⟩ ∧
    regenerate_scene_part_media true (fun _ => none)
        (fun _ => some "https://img.example/b.jpg") "guion corto" =
      (none, some "https://img.example/b.jpg") := by
  exact ⟨rfl, rfl⟩

/-- Claim C1 (amended): the media URL is attached to the field selected by
the random draw — `videoUrl` when the video branch is drawn, `imageUrl`
otherwise — regardless of which search (video or image fallback) produced
the URL; the other field is left empty.  This holds for the pipeline's
scene assembly and for the media-regeneration endpoint. -/
theorem C1_thm (draws : Nat → Bool) (videoSearch imageSearch : String → Option String)
    (freshId : Nat → String) (i : Nat) (scene : GptScene) (draw : Bool) (script : String) :
    ((process_scene draws videoSearch imageSearch freshId i scene).imageUrl =
        (if draws i then none
         else select_media (draws i) videoSearch imageSearch (sceneQuery scene)) ∧
      (process_scene draws videoSearch imageSearch freshId i scene).videoUrl =
        (if draws i then select_media (draws i) videoSearch imageSearch (sceneQuery scene)
         else none)) ∧
    regenerate_scene_part_media draw videoSearch imageSearch script =
      ((if draw then none else select_media draw videoSearch imageSearch (regenQuery script)),
       (if draw then select_media draw videoSearch imageSearch (regenQuery script)
        else none)) := by
  refine ⟨⟨rfl, rfl⟩, ?_⟩
  cases draw <;> rfl

/-- Claim C2: every scene assembled by the pipeline, and every
media-regeneration response, has at most one of `imageUrl`/`videoUrl`
non-null; consequently every scene list in a 200 response of the
initial-content endpoint satisfies the invariant. -/
theorem C2_thm :
    (∀ (draws : Nat → Bool) (videoSearch imageSearch : String → Option String)
        (freshId : Nat → String) (i : Nat) (scene : GptScene),
      (process_scene draws videoSearch imageSearch freshId i scene).imageUrl = none ∨
      (process_scene draws videoSearch imageSearch freshId i scene).videoUrl = none) ∧
    (∀ (draw : Bool) (videoSearch imageSearch : String → Option String) (script : String),
      (regenerate_scene_part_media draw videoSearch imageSearch script).1 = none ∨
      (regenerate_scene_part_media draw videoSearch imageSearch script).2 = none) ∧
    (∀ (gpt : Int → List GptScene) (draws : Nat → Bool)
        (videoSearch imageSearch : String → Option String) (freshId : Nat → String)
        (req : InitRequest) (l : List OutScene),
      (generate_initial_content gpt draws videoSearch imageSearch freshId req).1.body =
        .scenes l →
      ∀ s ∈ l, s.imageUrl = none ∨ s.videoUrl = none) := by
  refine ⟨process_scene_mutex, ?_, ?_⟩
  · intro draw vs is script
    cases draw
    · right; simp [regenerate_scene_part_media]
    · left; simp [regenerate_scene_part_media]
  · intro gpt draws vs is fid req l hbody s hs
    rcases hdur : req.duracion with _ | dur
    · simp [generate_initial_content, hdur] at hbody
    · by_cases hg : pyStrip req.guionPersonalizado = ""
      · simp [generate_initial_content, hdur, hg] at hbody
      · simp [generate_initial_content, hdur, hg] at hbody
        rw [← hbody] at hs
        rcases List.mem_map.mp hs with ⟨p, _, hp⟩
        rw [← hp]
        exact process_scene_mutex draws vs is fid p.1 p.2

/-- Claim C2, witness instantiating the handler-level conjunct at a
concrete request and oracle set. -/
theorem C2_witness :
    (process_scene (fun _ => true) (fun _ => some "v.mp4") (fun _ => none) (fun _ => "u") 0
        ⟨some "s1", some "texto", ["a"]⟩).imageUrl = none ∨
    (process_scene (fun _ => true) (fun _ => some "v.mp4") (fun _ => none) (fun _ => "u") 0
        ⟨some "s1", some "texto", ["a"]⟩).videoUrl = none :=
  (C2_thm.2.2 (fun _ => [⟨some "s1", some "texto", ["a"]⟩]) (fun _ => true)
    (fun _ => some "v.mp4") (fun _ => none) (fun _ => "u")
    ⟨"texto", some 7, none, none, none⟩ _ rfl _ (List.mem_singleton_self _))

/-- Claim C3, counterexample: `extract_keywords("el", 3)` falls back to the
first whitespace-delimited token and returns `["el"]` — a stopword of
length 2 — contradicting the claim that returned tokens are never shorter
than 3 characters nor stopwords. -/
theorem C3_counterexample :
    extract_keywords "el" 3 = ["el"] ∧ "el" ∈ stopwords ∧
    ("el" : String).length = 2 := by
  exact ⟨by decide, by decide, by decide⟩

/-- Claim C3 (amended): whenever at least one token survives the
stopword/length filter and `n ≥ 1`, the result of `extract_keywords` has
length at most `n` and contains no stopword and no token shorter than 3
characters; otherwise the result is the single fallback token — the text's
first space-delimited segment — which may violate those constraints. -/
theorem C3_thm (text : String) (n : Nat) :
    (filteredWords text ≠ [] → 0 < n →
      (extract_keywords text n).length ≤ n ∧
      ∀ w ∈ extract_keywords text n, w ∉ stopwords ∧ 2 < w.length) ∧
    ((filteredWords text = [] ∨ n = 0) →
      extract_keywords text n = [firstSpaceToken text]) := by
  constructor
  · intro hf hn
    have hs : sortByCountDesc (countOcc (filteredWords text))
        (uniques (filteredWords text)) ≠ [] :=
      sortByCountDesc_ne_nil (uniques_ne_nil hf)
    have hmc : mostCommon (filteredWords text) n ≠ [] := by
      unfold mostCommon
      intro hc
      rcases List.take_eq_nil_iff.mp hc with h0 | h0
      · omega
      · exact hs h0
    have hext : extract_keywords text n = mostCommon (filteredWords text) n := by
      unfold extract_keywords
      simp only [List.isEmpty_iff, if_neg hmc]
    constructor
    · rw [hext]
      unfold mostCommon
      exact List.length_take_le n _
    · intro w hw
      rw [hext] at hw
      have h1 : w ∈ sortByCountDesc (countOcc (filteredWords text))
          (uniques (filteredWords text)) :=
        List.take_subset n _ hw
      exact mem_filteredWords (mem_uniques (mem_sortByCountDesc h1))
  · intro h
    rcases h with hf | hn
    · unfold extract_keywords mostCommon
      rw [hf]
      simp [uniques, sortByCountDesc]
    · subst hn
      unfold extract_keywords mostCommon
      simp

/-- Claim C3, witness: a text with surviving tokens satisfies the filtered
properties, and an all-stopword text takes the fallback. -/
theorem C3_witness :
    ((extract_keywords "el gato y el gato duermen" 2).length ≤ 2 ∧
      ∀ w ∈ extract_keywords "el gato y el gato duermen" 2,
        w ∉ stopwords ∧ 2 < w.length) ∧
    extract_keywords "el la" 2 = [firstSpaceToken "el la"] :=
  ⟨(C3_thm "el gato y el gato duermen" 2).1 (by decide) (by decide),
   (C3_thm "el la" 2).2 (Or.inl (by decide))⟩

/-- Claim C4, counterexample: with hits `[{webformatURL: "w1"}, {largeImageURL:
"L2"}]` the code returns the second hit's `largeImageURL` ("L2"), while the
claim ("the first hit's largeImageURL, falling back to that same hit's
webformatURL") predicts "w1". -/
theorem C4_counterexample :
    buscar_imagen_pixabay (.ok [⟨none, some "w1"⟩, ⟨some "L2", none⟩]) = some "L2" ∧
    buscar_imagen_claimed [⟨none, some "w1"⟩, ⟨some "L2", none⟩] = some "w1" ∧
    buscar_imagen_pixabay (.ok [⟨none, some "w1"⟩, ⟨some "L2", none⟩]) ≠
      buscar_imagen_claimed [⟨none, some "w1"⟩, ⟨some "L2", none⟩] := by
  exact ⟨rfl, rfl, by decide⟩

/-- Claim C4 (amended): the image search returns the `largeImageURL` of the
first hit that carries one; when no hit carries `largeImageURL`, it returns
the `webformatURL` of the *last* hit that carries one; it returns none
exactly when no hit carries either field. -/
theorem C4_thm (hits : List ImageHit) :
    buscar_imagen_pixabay (.ok hits) = oalt (firstLarge hits) (lastWeb hits) ∧
    (buscar_imagen_pixabay (.ok hits) = none ↔
      firstLarge hits = none ∧ lastWeb hits = none) := by
  have h1 : buscar_imagen_pixabay (.ok hits) = oalt (firstLarge hits) (lastWeb hits) := by
    cases hits with
    | nil => rfl
    | cons h rest =>
      show scanImageHits (h :: rest) none =
        oalt (firstLarge (h :: rest)) (lastWeb (h :: rest))
      rw [scanImageHits_eq, oalt_none]
  refine ⟨h1, ?_⟩
  rw [h1]
  cases firstLarge hits <;> cases lastWeb hits <;> simp [oalt]

/-- Claim C9: a provider error (any `requests.exceptions.RequestException`:
network failure, the 10-second timeout, or a non-2xx status raised by
`raise_for_status`) is caught inside the search function and yields none,
and zero hits also yield none — the two cases produce identical results, so
the caller cannot distinguish them, and the search functions are total
(they return an `Option`, never an exception). -/
theorem C9_thm :
    buscar_imagen_pixabay .error = none ∧
    buscar_imagen_pixabay (.ok []) = none ∧
    buscar_video_pixabay .error = none ∧
    buscar_video_pixabay (.ok []) = none ∧
    buscar_imagen_pixabay .error = buscar_imagen_pixabay (.ok []) ∧
    buscar_video_pixabay .error = buscar_video_pixabay (.ok []) := by
  exact ⟨rfl, rfl, rfl, rfl, rfl, rfl⟩

/-- Claim C5: the scene-count target passed to the generative split is
`max(1, round(duracion / 7))`; in particular duration 70 yields 10, and
every duration from 1 to 10 yields 1. -/
theorem C5_thm :
    (∀ d : Int, num_escenas_esperadas d = max 1 (round ((d : ℚ) / 7))) ∧
    num_escenas_esperadas 70 = 10 ∧
    (∀ d : Int, 1 ≤ d → d ≤ 10 → num_escenas_esperadas d = 1) := by
  refine ⟨fun d => rfl, by norm_num [num_escenas_esperadas, round_eq], ?_⟩
  intro d h1 h2
  interval_cases d <;> norm_num [num_escenas_esperadas, round_eq]

/-- Claim C5, witness at durations 70 and 7. -/
theorem C5_witness :
    num_escenas_esperadas 70 = 10 ∧ num_escenas_esperadas 7 = 1 :=
  ⟨C5_thm.2.1, C5_thm.2.2 7 (by norm_num) (by norm_num)⟩

/-- Claim C6: in the batch audio endpoint, a scene with a non-empty
`audioBase64` (or an empty script) is returned unchanged and contributes no
synthesis call; the batch is idempotent on its own output; the single-scene
regeneration branch always synthesizes from the script, ignoring any
existing payload. -/
theorem C6_thm :
    (∀ (tts : String → String) (scene : OutScene),
      ((∃ a, scene.audioBase64 = some a ∧ a ≠ "") ∨ scene.script = "") →
      process_audio_scene tts scene = scene ∧ audio_call_count [scene] = 0) ∧
    (∀ (tts : String → String) (scenes : List OutScene),
      generate_audio tts (generate_audio tts scenes) = generate_audio tts scenes) ∧
    (∀ (tts : String → String) (scene : OutScene) (payload : Option String),
      regenerate_scene_part_audio tts { scene with audioBase64 := payload } =
        tts scene.script) := by
  refine ⟨?_, ?_, ?_⟩
  · intro tts scene h
    have hc : ((scene.script != "") && !(pyTruthy scene.audioBase64)) = false := by
      rcases h with ⟨a, ha, hne⟩ | hs
      · simp [ha, pyTruthy, hne]
      · simp [hs]
    constructor
    · simp [process_audio_scene, hc]
    · simp [audio_call_count, hc]
  · intro tts scenes
    unfold generate_audio
    rw [List.map_map]
    have hfun : process_audio_scene tts ∘ process_audio_scene tts =
        process_audio_scene tts := by
      funext s
      exact process_audio_scene_idem tts s
    rw [hfun]
  · intro tts scene payload
    rfl

/-- Claim C6, witness: a scene with existing payload "viejo" passes the
batch loop unchanged and costs no call. -/
theorem C6_witness :
    process_audio_scene (fun _ => "B64DATA") ⟨"id1", "hola mundo", none, none, some "viejo"⟩ =
      ⟨"id1", "hola mundo", none, none, some "viejo"⟩ ∧
    audio_call_count [⟨"id1", "hola mundo", none, none, some "viejo"⟩] = 0 :=
  C6_thm.1 (fun _ => "B64DATA") ⟨"id1", "hola mundo", none, none, some "viejo"⟩
    (Or.inl ⟨"viejo", rfl, by decide⟩)

/-- Claim C7: with a truthy guion and nicho, the SEO endpoint returns a
mapping with exactly the requested keys: "titulo"/"descripcion"/"hashtags"
alone for the individual types; all three for type "all" and for an absent
type (the default). -/
theorem C7_thm (genTitulo genDescripcion genHashtags : String)
    (guion nicho : Option String)
    (hg : pyTruthy guion = true) (hn : pyTruthy nicho = true) :
    generate_seo genTitulo genDescripcion genHashtags guion nicho (some "titulo") =
      .ok [("titulo", genTitulo)] ∧
    generate_seo genTitulo genDescripcion genHashtags guion nicho (some "descripcion") =
      .ok [("descripcion", genDescripcion)] ∧
    generate_seo genTitulo genDescripcion genHashtags guion nicho (some "hashtags") =
      .ok [("hashtags", genHashtags)] ∧
    generate_seo genTitulo genDescripcion genHashtags guion nicho (some "all") =
      .ok [("titulo", genTitulo), ("descripcion", genDescripcion),
           ("hashtags", genHashtags)] ∧
    generate_seo genTitulo genDescripcion genHashtags guion nicho none =
      .ok [("titulo", genTitulo), ("descripcion", genDescripcion),
           ("hashtags", genHashtags)] := by
  have hcond : (!(pyTruthy guion) || !(pyTruthy nicho)) = false := by
    simp [hg, hn]
  refine ⟨?_, ?_, ?_, ?_, ?_⟩ <;> (unfold generate_seo; rw [hcond]; rfl)

/-- Claim C7, witness at a concrete request. -/
theorem C7_witness :
    generate_seo "T" "D" "H" (some "guion") (some "finanzas") (some "titulo") =
      .ok [("titulo", "T")] ∧
    generate_seo "T" "D" "H" (some "guion") (some "finanzas") none =
      .ok [("titulo", "T"), ("descripcion", "D"), ("hashtags", "H")] := by
  have h := C7_thm "T" "D" "H" (some "guion") (some "finanzas") rfl rfl
  exact ⟨h.1, h.2.2.2.2⟩

/-- Claim C8, counterexample: a request whose `guionPersonalizado` is empty
but whose `duracion` is missing (or not convertible) is answered with 500,
not 400: the `int(data.get('duracion'))` conversion at line 56 runs — and
raises — before the empty-script validation at line 61. -/
theorem C8_counterexample :
    pyStrip "" = "" ∧
    (generate_initial_content (fun _ => []) (fun _ => false) (fun _ => none)
        (fun _ => none) (fun _ => "u") ⟨"", none, none, none, none⟩).1.status = 500 ∧
    (generate_initial_content (fun _ => []) (fun _ => false) (fun _ => none)
        (fun _ => none) (fun _ => "u") ⟨"", none, none, none, none⟩).1.status ≠ 400 := by
  exact ⟨rfl, rfl, by decide⟩

/-- Claim C8 (amended): every request whose `duracion` converts to an
integer and whose `guionPersonalizado` strips to the empty string is
answered with a 400 response carrying an error body, and no outbound call
(generative or media search) is made. -/
theorem C8_thm (gpt : Int → List GptScene) (draws : Nat → Bool)
    (videoSearch imageSearch : String → Option String) (freshId : Nat → String)
    (req : InitRequest) (d : Int) (hd : req.duracion = some d)
    (hg : pyStrip req.guionPersonalizado = "") :
    generate_initial_content gpt draws videoSearch imageSearch freshId req =
      (⟨400, .error "El guion personalizado no puede estar vacío."⟩, 0) := by
  simp [generate_initial_content, hd, hg]

/-- Claim C8, witness: a whitespace-only script with a valid duration. -/
theorem C8_witness :
    generate_initial_content (fun _ => []) (fun _ => true) (fun _ => none)
      (fun _ => none) (fun _ => "u")
      ⟨"   ", some 30, some "9:16", some "misterio", some "es"⟩ =
      (⟨400, .error "El guion personalizado no puede estar vacío."⟩, 0) :=
  C8_thm (fun _ => []) (fun _ => true) (fun _ => none) (fun _ => none)
    (fun _ => "u") ⟨"   ", some 30, some "9:16", some "misterio", some "es"⟩ 30
    rfl (by decide)

/-- Claim C10: whenever `duracion` is missing or not convertible to an
integer, the initial-content endpoint answers 500 (never 400) and makes no
outbound call, regardless of the script — the conversion at line 56
precedes the empty-script validation at line 61. -/
theorem C10_thm (gpt : Int → List GptScene) (draws : Nat → Bool)
    (videoSearch imageSearch : String → Option String) (freshId : Nat → String)
    (req : InitRequest) (hd : req.duracion = none) :
    (generate_initial_content gpt draws videoSearch imageSearch freshId req).1.status = 500 ∧
    (generate_initial_content gpt draws videoSearch imageSearch freshId req).1.status ≠ 400 ∧
    (generate_initial_content gpt draws videoSearch imageSearch freshId req).2 = 0 := by
  refine ⟨?_, ?_, ?_⟩ <;> simp [generate_initial_content, hd]

/-- Claim C10, witness: duracion missing while the script is also empty. -/
theorem C10_witness :
    (generate_initial_content (fun _ => []) (fun _ => true) (fun _ => none)
        (fun _ => none) (fun _ => "u") ⟨"", none, none, none, none⟩).1.status = 500 ∧
    (generate_initial_content (fun _ => []) (fun _ => true) (fun _ => none)
        (fun _ => none) (fun _ => "u") ⟨"", none, none, none, none⟩).1.status ≠ 400 ∧
    (generate_initial_content (fun _ => []) (fun _ => true) (fun _ => none)
        (fun _ => none) (fun _ => "u") ⟨"", none, none, none, none⟩).2 = 0 :=
  C10_thm (fun _ => []) (fun _ => true) (fun _ => none) (fun _ => none)
    (fun _ => "u") ⟨"", none, none, none, none⟩ rfl
